import Mathlib

/-
Verification of the transform pipeline and the resize/render state machine of
a wgpu cube renderer (src/main.rs, src/transforms.rs).

Modelling conventions:
- f32 arithmetic is modelled by real arithmetic (ℝ); trigonometric functions,
  square roots and divisions are the corresponding real functions.
- cgmath Matrix4::new takes its sixteen arguments in column-major order
  (c0.x, c0.y, c0.z, c0.w, c1.x, ...).  We model a Matrix4 by
  Matrix (Fin 4) (Fin 4) ℝ in the usual mathematical row/column convention,
  so cgmath argument "ci rj" becomes entry (row j, column i).  cgmath matrix
  multiplication and matrix-vector application agree with the mathematical
  convention, so A * B and mulVec translate directly.
- Matrix4::as_ref() exposes the sixteen floats in column-major storage order;
  matToBuf below reproduces that flattening, and the device-resident uniform
  buffer is modelled as the function Fin 16 → ℝ holding those floats.
- GPU handles (instance, device, queue, the surface object itself) carry no
  host-visible data; the wgpu Surface is modelled by the configuration last
  applied to it via surface.configure.
-/

namespace CubeWgpu

noncomputable section

abbrev Mat4 := Matrix (Fin 4) (Fin 4) ℝ

/-- cgmath Rad::cot, defined as the reciprocal of the tangent. -/
def cot (θ : ℝ) : ℝ := (Real.tan θ)⁻¹

/-- cgmath Vector3 / Point3 over ℝ. -/
structure Vec3 where
  x : ℝ
  y : ℝ
  z : ℝ

def Vec3.sub (a b : Vec3) : Vec3 := ⟨a.x - b.x, a.y - b.y, a.z - b.z⟩

def Vec3.dot (a b : Vec3) : ℝ := a.x * b.x + a.y * b.y + a.z * b.z

def Vec3.cross (a b : Vec3) : Vec3 :=
  ⟨a.y * b.z - a.z * b.y, a.z * b.x - a.x * b.z, a.x * b.y - a.y * b.x⟩

def Vec3.magnitude (a : Vec3) : ℝ := Real.sqrt (a.dot a)

def Vec3.normalize (a : Vec3) : Vec3 :=
  ⟨a.x * (1 / a.magnitude), a.y * (1 / a.magnitude), a.z * (1 / a.magnitude)⟩

/-- src/transforms.rs OPENGL_TO_WGPU_MATRIX: cgmath columns
(1,0,0,0), (0,1,0,0), (0,0,0.5,0), (0,0,0.5,1), rendered here row-major. -/
def OPENGL_TO_WGPU_MATRIX : Mat4 :=
  !![1, 0, 0,   0;
     0, 1, 0,   0;
     0, 0, 0.5, 0.5;
     0, 0, 0,   1]

/-- cgmath perspective(Rad fovy, aspect, near, far): with f = cot (fovy/2),
columns (f/aspect,0,0,0), (0,f,0,0), (0,0,(far+near)/(near-far),-1),
(0,0,2*far*near/(near-far),0), rendered here row-major. -/
def perspective (fovy aspect near far : ℝ) : Mat4 :=
  !![cot (fovy / 2) / aspect, 0,              0,                           0;
     0,                       cot (fovy / 2), 0,                           0;
     0,                       0,              (far + near) / (near - far), 2 * far * near / (near - far);
     0,                       0,              -1,                          0]

/-- cgmath ortho(left, right, bottom, top, near, far), rendered row-major. -/
def ortho (left right bottom top near far : ℝ) : Mat4 :=
  !![2 / (right - left), 0,                  0,                -((right + left) / (right - left));
     0,                  2 / (top - bottom), 0,                -((top + bottom) / (top - bottom));
     0,                  0,                  -(2 / (far - near)), -((far + near) / (far - near));
     0,                  0,                  0,                1]

/-- cgmath Matrix4::look_at_rh(eye, center, up). -/
def look_at_rh (eye center up : Vec3) : Mat4 :=
  let f := (center.sub eye).normalize
  let s := (f.cross up).normalize
  let u := s.cross f
  !![s.x,    s.y,    s.z,    -(eye.dot s);
     u.x,    u.y,    u.z,    -(eye.dot u);
     -(f.x), -(f.y), -(f.z), eye.dot f;
     0,      0,      0,      1]

/-- cgmath Matrix4::from_translation. -/
def from_translation (v : Vec3) : Mat4 :=
  !![1, 0, 0, v.x;
     0, 1, 0, v.y;
     0, 0, 1, v.z;
     0, 0, 0, 1]

/-- cgmath Matrix4::from_angle_x. -/
def from_angle_x (θ : ℝ) : Mat4 :=
  !![1, 0,          0,             0;
     0, Real.cos θ, -(Real.sin θ), 0;
     0, Real.sin θ, Real.cos θ,    0;
     0, 0,          0,             1]

/-- cgmath Matrix4::from_angle_y. -/
def from_angle_y (θ : ℝ) : Mat4 :=
  !![Real.cos θ,    0, Real.sin θ, 0;
     0,             1, 0,          0;
     -(Real.sin θ), 0, Real.cos θ, 0;
     0,             0, 0,          1]

/-- cgmath Matrix4::from_angle_z. -/
def from_angle_z (θ : ℝ) : Mat4 :=
  !![Real.cos θ, -(Real.sin θ), 0, 0;
     Real.sin θ, Real.cos θ,    0, 0;
     0,          0,             1, 0;
     0,          0,             0, 1]

/-- cgmath Matrix4::from_nonuniform_scale. -/
def from_nonuniform_scale (sx sy sz : ℝ) : Mat4 :=
  !![sx, 0,  0,  0;
     0,  sy, 0,  0;
     0,  0,  sz, 0;
     0,  0,  0,  1]

/-- src/transforms.rs create_view. -/
def create_view (camera_position look_direction up_direction : Vec3) : Mat4 :=
  look_at_rh camera_position look_direction up_direction

/-- src/transforms.rs create_projection.  The arrays [f32;3] of the source
become Vec3 here (index 0 ↦ x, 1 ↦ y, 2 ↦ z). -/
def create_projection (aspect : ℝ) ( is_perspective : Bool) : Mat4 :=
  if is_perspective then
    OPENGL_TO_WGPU_MATRIX * perspective (2 * Real.pi / 5) aspect 0.1 100
  else
    OPENGL_TO_WGPU_MATRIX * ortho (-4) 4 (-3) 3 (-1) 6

/-- src/transforms.rs create_view_projection: returns
(view, projection, projection * view). -/
def create_view_projection (camera_position look_direction up_direction : Vec3)
    (aspect : ℝ) ( is_perspective : Bool) : Mat4 × Mat4 × Mat4 :=
  let view_mat := look_at_rh camera_position look_direction up_direction
  let project_mat :=
    if is_perspective then
      OPENGL_TO_WGPU_MATRIX * perspective (2 * Real.pi / 5) aspect 0.1 100
    else
      OPENGL_TO_WGPU_MATRIX * ortho (-4) 4 (-3) 3 (-1) 6
  (view_mat, project_mat, project_mat * view_mat)

/-- src/transforms.rs create_transforms: the arrays [f32;3] of the source
become Vec3 (translation[0] ↦ x, rotation[0] ↦ x, and so on). -/
def create_transforms (translation rotation scaling : Vec3) : Mat4 :=
  let trans_mat := from_translation translation
  let rotate_mat_x := from_angle_x rotation.x
  let rotate_mat_y := from_angle_y rotation.y
  let rotate_mat_z := from_angle_z rotation.z
  let scale_mat := from_nonuniform_scale scaling.x scaling.y scaling.z
  trans_mat * rotate_mat_z * rotate_mat_y * rotate_mat_x * scale_mat

/-- winit PhysicalSize with u32 dimensions modelled as ℕ. -/
structure PhysicalSize where
  width : ℕ
  height : ℕ
deriving DecidableEq

/-- The mutable dimensions of wgpu SurfaceConfiguration (format, usage,
present mode, alpha mode and latency are fixed at startup from the surface
capabilities and never written afterwards, so they are omitted). -/
structure SurfaceConfig where
  width : ℕ
  height : ℕ
deriving DecidableEq

/-- src/transforms.rs InitWgpu.  instance/device/queue are opaque handles with
no host-visible state; the Surface object is modelled by the configuration
last applied to it through surface.configure. -/
structure InitWgpu where
  config : SurfaceConfig
  size : PhysicalSize
  surface : SurfaceConfig

/-- src/transforms.rs InitWgpu::init_wgpu: config takes the window inner size
and the surface is configured with it before returning. -/
def InitWgpu.init_wgpu (size : PhysicalSize) : InitWgpu :=
  { config := ⟨size.width, size.height⟩
    size := size
    surface := ⟨size.width, size.height⟩ }

/-- src/main.rs IS_PERSPECTIVE. -/
def IS_PERSPECTIVE : Bool := true

/-- Matrix4::as_ref() as used for the uniform upload: the sixteen floats in
column-major storage order, element k holding entry (row k % 4, column k / 4). -/
def matToBuf (m : Mat4) : Fin 16 → ℝ := fun k =>
  m ⟨k.val % 4, Nat.mod_lt _ (by norm_num)⟩
    ⟨k.val / 4, Nat.div_lt_of_lt_mul (by simp)⟩

/-- src/main.rs State: pipeline, vertex buffer and bind group are immutable
GPU handles and are omitted; uniform_buffer holds the sixteen floats last
written to the device-resident uniform buffer. -/
structure State where
  init : InitWgpu
  uniform_buffer : Fin 16 → ℝ
  model_matrix : Mat4
  view_matrix : Mat4
  projection_matrix : Mat4

/-- src/main.rs State::new, as a function of the window inner size. -/
def State.new (windowSize : PhysicalSize) : State :=
  let init := InitWgpu.init_wgpu windowSize
  let camera_position : Vec3 := ⟨3, 1.5, 3⟩
  let look_direction : Vec3 := ⟨0, 0, 0⟩
  let up_direction : Vec3 := ⟨0, 1, 0⟩
  let model_matrix := create_transforms ⟨0, 0, 0⟩ ⟨0, 0, 0⟩ ⟨1, 1, 1⟩
  let vpm := create_view_projection camera_position look_direction up_direction
    ((init.config.width : ℝ) / (init.config.height : ℝ)) IS_PERSPECTIVE
  let mvp_mat := vpm.2.2 * model_matrix
  { init := init
    uniform_buffer := matToBuf mvp_mat
    model_matrix := model_matrix
    view_matrix := vpm.1
    projection_matrix := vpm.2.1 }

/-- src/main.rs State::resize. -/
def State.resize (s : State) (new_size : PhysicalSize) : State :=
  if 0 < new_size.width ∧ 0 < new_size.height then
    let init' : InitWgpu :=
      { config := ⟨new_size.width, new_size.height⟩
        size := new_size
        surface := ⟨new_size.width, new_size.height⟩ }
    let projection_matrix :=
      create_projection ((new_size.width : ℝ) / (new_size.height : ℝ)) IS_PERSPECTIVE
    let mvp_mat := projection_matrix * s.view_matrix * s.model_matrix
    { s with
        init := init'
        projection_matrix := projection_matrix
        uniform_buffer := matToBuf mvp_mat }
  else s

/-- wgpu::SurfaceError. -/
inductive SurfaceError
  | Timeout
  | Outdated
  | Lost
  | OutOfMemory
deriving DecidableEq

/-- The commands recorded and submitted by one successful frame of
src/main.rs State::render. -/
structure RenderOutput where
  depthWidth : ℕ
  depthHeight : ℕ
  depthClear : ℝ
  colorClearR : ℝ
  colorClearG : ℝ
  colorClearB : ℝ
  colorClearA : ℝ
  drawFirst : ℕ
  drawLast : ℕ

/-- src/main.rs State::render.  Whether get_current_texture succeeds is
decided by the driver, so the acquisition outcome is an input; the ? operator
propagates its error.  The method writes no field of self, so the resulting
state is returned alongside the frame result. -/
def State.render (s : State) (acquire : Except SurfaceError Unit) :
    Except SurfaceError RenderOutput × State :=
  match acquire with
  | .error e => (.error e, s)
  | .ok _ =>
      (.ok { depthWidth := s.init.config.width
             depthHeight := s.init.config.height
             depthClear := 1
             colorClearR := 0.2
             colorClearG := 0.247
             colorClearB := 0.314
             colorClearA := 1
             drawFirst := 0
             drawLast := 36 }, s)

/-- src/main.rs State::update (empty body). -/
def State.update (s : State) : State := s

/-- Whether the event loop keeps running after a dispatched event. -/
inductive LoopControl
  | continueLoop
  | exitLoop
deriving DecidableEq

/-- The window events dispatched by the event loop of src/main.rs main;
a redraw request carries the acquisition outcome of that frame. -/
inductive WinEvent
  | closeRequested
  | redrawRequested (acquire : Except SurfaceError Unit)
  | resized (size : PhysicalSize)
  | other

/-- One dispatch of the event-loop closure of src/main.rs main. -/
def eventStep (s : State) : WinEvent → State × LoopControl
  | .closeRequested => (s, .exitLoop)
  | .redrawRequested acquire =>
      let s1 := (State.update s)
      let r := State.render s1 acquire
      match r.1 with
      | .ok _ => (r.2, .continueLoop)
      | .error .Lost => (State.resize r.2 r.2.init.size, .continueLoop)
      | .error .OutOfMemory => (r.2, .exitLoop)
      | .error _ => (r.2, .continueLoop)
  | .resized physical_size => (State.resize s physical_size, .continueLoop)
  | .other => (s, .continueLoop)

/-- The invariant of claim C10: the stored size agrees with the configured
surface dimensions. -/
def sizeMatchesConfig (s : State) : Prop :=
  s.init.size.width = s.init.config.width ∧ s.init.size.height = s.init.config.height

end

section Lemmas

lemma from_translation_zero : from_translation ⟨0, 0, 0⟩ = 1 := by
  ext i j
  fin_cases i <;> fin_cases j <;>
    simp [from_translation, Matrix.one_apply, Matrix.vecHead, Matrix.vecTail]

lemma from_angle_x_zero : from_angle_x 0 = 1 := by
  ext i j
  fin_cases i <;> fin_cases j <;>
    simp [from_angle_x, Matrix.one_apply, Matrix.vecHead, Matrix.vecTail]

lemma from_angle_y_zero : from_angle_y 0 = 1 := by
  ext i j
  fin_cases i <;> fin_cases j <;>
    simp [from_angle_y, Matrix.one_apply, Matrix.vecHead, Matrix.vecTail]

lemma from_angle_z_zero : from_angle_z 0 = 1 := by
  ext i j
  fin_cases i <;> fin_cases j <;>
    simp [from_angle_z, Matrix.one_apply, Matrix.vecHead, Matrix.vecTail]

lemma from_nonuniform_scale_one : from_nonuniform_scale 1 1 1 = 1 := by
  ext i j
  fin_cases i <;> fin_cases j <;>
    simp [from_nonuniform_scale, Matrix.one_apply, Matrix.vecHead, Matrix.vecTail]

end Lemmas

/-- Claim C8: create_transforms with zero translation, zero rotation and unit
scale is the 4×4 identity matrix. -/
theorem create_transforms_neutral_identity :
    create_transforms ⟨0, 0, 0⟩ ⟨0, 0, 0⟩ ⟨1, 1, 1⟩ = 1 := by
  show from_translation ⟨0, 0, 0⟩ * from_angle_z 0 * from_angle_y 0 *
    from_angle_x 0 * from_nonuniform_scale 1 1 1 = 1
  rw [from_translation_zero, from_angle_x_zero, from_angle_y_zero,
    from_angle_z_zero, from_nonuniform_scale_one]
  simp

/-- Claim C4: create_transforms is the product
translation * rotationZ * rotationY * rotationX * scale, so that a column
vector is scaled first, then rotated about X, then Y, then Z, then
translated. -/
theorem create_transforms_order (t r s : Vec3) :
    create_transforms t r s =
      from_translation t * from_angle_z r.z * from_angle_y r.y *
        from_angle_x r.x * from_nonuniform_scale s.x s.y s.z ∧
    ∀ v : Fin 4 → ℝ,
      (create_transforms t r s).mulVec v =
        (from_translation t).mulVec ((from_angle_z r.z).mulVec
          ((from_angle_y r.y).mulVec ((from_angle_x r.x).mulVec
            ((from_nonuniform_scale s.x s.y s.z).mulVec v)))) := by
  refine ⟨rfl, fun v => ?_⟩
  simp only [Matrix.mulVec_mulVec]
  have h : create_transforms t r s =
      from_translation t * (from_angle_z r.z * (from_angle_y r.y *
        (from_angle_x r.x * from_nonuniform_scale s.x s.y s.z))) := by
    show from_translation t * from_angle_z r.z * from_angle_y r.y *
      from_angle_x r.x * from_nonuniform_scale s.x s.y s.z = _
    rw [mul_assoc, mul_assoc, mul_assoc]
  rw [h]

/-- Claim C9: render never mutates host-visible controller state: whether the
frame succeeds or fails, the state (matrices, stored size, presentation
configuration) after the call equals the state before it. -/
theorem render_preserves_host_state (s : State) (acquire : Except SurfaceError Unit) :
    (s.render acquire).2 = s := by
  cases acquire <;> rfl

/-- Claim C6: a resize with zero width or zero height is a silent no-op: the
whole controller state, its presentation configuration, stored size and
uniform buffer included, is unchanged. -/
theorem resize_degenerate_noop (s : State) (n : PhysicalSize)
    (h : n.width = 0 ∨ n.height = 0) : s.resize n = s := by
  unfold State.resize
  rw [if_neg]
  rcases h with h | h <;> simp [h]

theorem resize_degenerate_noop_witness :
    (State.new ⟨800, 600⟩).resize ⟨0, 300⟩ = State.new ⟨800, 600⟩ :=
  resize_degenerate_noop (State.new ⟨800, 600⟩) ⟨0, 300⟩ (by decide)

/-- Claim C5: after a redraw request, a Lost acquisition makes the controller
resize with the stored size and the loop continues; OutOfMemory exits the
loop; Timeout and Outdated are logged, the frame is skipped and the loop
continues with the state unchanged; a successful render leaves the state
unchanged and the loop continues. -/
theorem redraw_error_handling (s : State) :
    eventStep s (.redrawRequested (.error .Lost)) =
      (s.resize s.init.size, .continueLoop) ∧
    eventStep s (.redrawRequested (.error .OutOfMemory)) = (s, .exitLoop) ∧
    eventStep s (.redrawRequested (.error .Timeout)) = (s, .continueLoop) ∧
    eventStep s (.redrawRequested (.error .Outdated)) = (s, .continueLoop) ∧
    eventStep s (.redrawRequested (.ok ())) = (s, .continueLoop) := by
  exact ⟨rfl, rfl, rfl, rfl, rfl⟩

/-- Claim C1: the combined MVP matrix is composed as
projection × view × model: at startup the uniform buffer is initialized with
(projection × view) × model, and after every non-degenerate resize it is
rewritten with new_projection × view × model; in both cases it equals
P * V * M for the model M, view V and projection P of the state. -/
theorem mvp_is_projection_mul_view_mul_model (ws : PhysicalSize) (s : State)
    (n : PhysicalSize) (hw : 0 < n.width) (hh : 0 < n.height) :
    (State.new ws).uniform_buffer =
      matToBuf ((State.new ws).projection_matrix * (State.new ws).view_matrix *
        (State.new ws).model_matrix) ∧
    (s.resize n).uniform_buffer =
      matToBuf ((s.resize n).projection_matrix * s.view_matrix *
        s.model_matrix) := by
  constructor
  · rfl
  · unfold State.resize
    rw [if_pos ⟨hw, hh⟩]

theorem mvp_is_projection_mul_view_mul_model_witness :
    ((State.new ⟨800, 600⟩).resize ⟨400, 300⟩).uniform_buffer =
      matToBuf (((State.new ⟨800, 600⟩).resize ⟨400, 300⟩).projection_matrix *
        (State.new ⟨800, 600⟩).view_matrix * (State.new ⟨800, 600⟩).model_matrix) :=
  (mvp_is_projection_mul_view_mul_model ⟨800, 600⟩ (State.new ⟨800, 600⟩)
    ⟨400, 300⟩ (by decide) (by decide)).2

/-- Claim C2: a resize with positive width and height recomputes the
projection from the new aspect ratio width/height, rewrites the uniform
buffer with all sixteen floats of the new MVP, updates the presentation
configuration, the stored size and the surface to the new size, and leaves
the model and view matrices unchanged. -/
theorem resize_updates_projection_and_uniform (s : State) (n : PhysicalSize)
    (hw : 0 < n.width) (hh : 0 < n.height) :
    (s.resize n).projection_matrix =
      create_projection ((n.width : ℝ) / (n.height : ℝ)) IS_PERSPECTIVE ∧
    (s.resize n).uniform_buffer =
      matToBuf (create_projection ((n.width : ℝ) / (n.height : ℝ)) IS_PERSPECTIVE *
        s.view_matrix * s.model_matrix) ∧
    (s.resize n).init.config = ⟨n.width, n.height⟩ ∧
    (s.resize n).init.size = n ∧
    (s.resize n).init.surface = ⟨n.width, n.height⟩ ∧
    (s.resize n).model_matrix = s.model_matrix ∧
    (s.resize n).view_matrix = s.view_matrix := by
  unfold State.resize
  rw [if_pos ⟨hw, hh⟩]
  exact ⟨rfl, rfl, rfl, rfl, rfl, rfl, rfl⟩

theorem resize_updates_projection_and_uniform_witness :
    ((State.new ⟨800, 600⟩).resize ⟨400, 300⟩).model_matrix =
      (State.new ⟨800, 600⟩).model_matrix ∧
    ((State.new ⟨800, 600⟩).resize ⟨400, 300⟩).view_matrix =
      (State.new ⟨800, 600⟩).view_matrix :=
  ⟨(resize_updates_projection_and_uniform (State.new ⟨800, 600⟩) ⟨400, 300⟩
      (by decide) (by decide)).2.2.2.2.2.1,
   (resize_updates_projection_and_uniform (State.new ⟨800, 600⟩) ⟨400, 300⟩
      (by decide) (by decide)).2.2.2.2.2.2⟩

/-- Claim C7: resize is idempotent: a second resize with the same positive
size leaves the controller in the state of the first, and in particular the
sixteen floats written to the uniform buffer are identical both times. -/
theorem resize_idempotent (s : State) (n : PhysicalSize)
    (hw : 0 < n.width) (hh : 0 < n.height) :
    (s.resize n).resize n = s.resize n ∧
    ((s.resize n).resize n).uniform_buffer = (s.resize n).uniform_buffer := by
  constructor
  · unfold State.resize
    rw [if_pos ⟨hw, hh⟩, if_pos ⟨hw, hh⟩]
  · unfold State.resize
    rw [if_pos ⟨hw, hh⟩, if_pos ⟨hw, hh⟩]

theorem resize_idempotent_witness :
    ((State.new ⟨800, 600⟩).resize ⟨400, 300⟩).resize ⟨400, 300⟩ =
      (State.new ⟨800, 600⟩).resize ⟨400, 300⟩ :=
  (resize_idempotent (State.new ⟨800, 600⟩) ⟨400, 300⟩ (by decide) (by decide)).1

/-- Claim C10: after initialization, and preserved by every resize and
render, the stored size equals the configured surface dimensions; hence the
surface-lost recovery path, resize with the stored size, reapplies to the
surface exactly the currently configured dimensions. -/
theorem size_config_invariant (ws : PhysicalSize) (s : State) (n : PhysicalSize)
    (acquire : Except SurfaceError Unit) (hs : sizeMatchesConfig s) :
    sizeMatchesConfig (State.new ws) ∧
    sizeMatchesConfig (s.resize n) ∧
    sizeMatchesConfig (s.render acquire).2 ∧
    (0 < s.init.size.width → 0 < s.init.size.height →
      (s.resize s.init.size).init.surface = s.init.config) := by
  refine ⟨⟨rfl, rfl⟩, ?_, ?_, ?_⟩
  · unfold State.resize
    by_cases h : 0 < n.width ∧ 0 < n.height
    · rw [if_pos h]
      exact ⟨rfl, rfl⟩
    · rw [if_neg h]
      exact hs
  · cases acquire <;> exact hs
  · intro hw hh
    unfold State.resize
    rw [if_pos ⟨hw, hh⟩]
    obtain ⟨h1, h2⟩ := hs
    show (⟨s.init.size.width, s.init.size.height⟩ : SurfaceConfig) = s.init.config
    rw [h1, h2]

theorem size_config_invariant_witness :
    sizeMatchesConfig ((State.new ⟨800, 600⟩).resize ⟨400, 300⟩) :=
  (size_config_invariant ⟨800, 600⟩ (State.new ⟨800, 600⟩) ⟨400, 300⟩ (.ok ())
    ⟨rfl, rfl⟩).2.1

/-- Claim C3: create_projection builds, in perspective mode, the cgmath
perspective matrix with field of view 2π/5, near 0.1 and far 100, and in
orthographic mode the cgmath ortho matrix with bounds -4, 4, -3, 3, -1, 6;
in both modes the base matrix is composed with the fixed clip-convention
correction matrix OPENGL_TO_WGPU_MATRIX (identity except that it rescales
and shifts Z by 0.5/0.5), applied to the output of the base projection.
The last two conjuncts carry out the product entrywise. -/
theorem create_projection_entries (aspect : ℝ) :
    create_projection aspect true =
      OPENGL_TO_WGPU_MATRIX * perspective (2 * Real.pi / 5) aspect 0.1 100 ∧
    create_projection aspect false =
      OPENGL_TO_WGPU_MATRIX * ortho (-4) 4 (-3) 3 (-1) 6 ∧
    OPENGL_TO_WGPU_MATRIX =
      !![1, 0, 0, 0; 0, 1, 0, 0; 0, 0, 0.5, 0.5; 0, 0, 0, 1] ∧
    create_projection aspect true =
      !![cot (Real.pi / 5) / aspect, 0, 0, 0;
         0, cot (Real.pi / 5), 0, 0;
         0, 0, -(1000 / 999), -(100 / 999);
         0, 0, -1, 0] ∧
    create_projection aspect false =
      !![1 / 4, 0, 0, 0;
         0, 1 / 3, 0, 0;
         0, 0, -(1 / 7), 1 / 7;
         0, 0, 0, 1] := by
  have hfov : (2 * Real.pi / 5) / 2 = Real.pi / 5 := by ring
  refine ⟨rfl, rfl, rfl, ?_, ?_⟩
  · show OPENGL_TO_WGPU_MATRIX * perspective (2 * Real.pi / 5) aspect 0.1 100 = _
    ext i j
    fin_cases i <;> fin_cases j <;>
      simp [OPENGL_TO_WGPU_MATRIX, perspective, Matrix.mul_apply,
        Fin.sum_univ_four, hfov, Matrix.vecHead, Matrix.vecTail] <;>
      norm_num
  · show OPENGL_TO_WGPU_MATRIX * ortho (-4) 4 (-3) 3 (-1) 6 = _
    ext i j
    fin_cases i <;> fin_cases j <;>
      simp [OPENGL_TO_WGPU_MATRIX, ortho, Matrix.mul_apply,
        Fin.sum_univ_four, Matrix.vecHead, Matrix.vecTail] <;>
      norm_num

end CubeWgpu
